import Mathlib

/-!
Verification of the zfsbackup orchestration engine (package `zfs`,
file `backup.go`).  External processes are modelled by an oracle
environment `Env` mapping an argv vector to its outcome; every
operation returns the list of argv vectors it actually started (the
trace) together with its result, exactly following the Go control flow.
Strings are treated as sequences of characters; the repository only
ever manipulates ASCII command output, where Go's byte-based string
operations and the character-based ones used here agree.
-/

namespace ZfsBackup

/-- Split a character list at every occurrence of `sep` (Go
`strings.Split` with a one-character separator, over the characters). -/
def splitCharList (sep : Char) : List Char → List (List Char)
  | [] => [[]]
  | c :: rest =>
    let r := splitCharList sep rest
    if c = sep then [] :: r
    else
      match r with
      | [] => [[c]]
      | h :: t => (c :: h) :: t

/-- Go `strings.Split(s, sep)` for a one-character separator: the only
form the repository uses (`@`, newline, tab). -/
def splitChar (sep : Char) (s : String) : List String :=
  (splitCharList sep s.toList).map String.mk

/-- Go `strings.HasPrefix`: `pre` is a prefix of `s`. -/
def goStartsWith (s pre : String) : Bool :=
  pre.toList.isPrefixOf s.toList

/-- Go `strings.HasSuffix`: `suf` is a suffix of `s`. -/
def goEndsWith (s suf : String) : Bool :=
  suf.toList.isSuffixOf s.toList

/-- Go `strings.TrimSuffix`: remove one copy of `suf` from the end of `s`
if present, otherwise return `s` unchanged. -/
def trimSuffixGo (s suf : String) : String :=
  if goEndsWith s suf then
    String.mk (s.toList.take (s.toList.length - suf.toList.length))
  else s

/-- Whitespace characters trimmed by Go `strings.TrimSpace` (ASCII part). -/
def isSpaceGo (c : Char) : Bool :=
  c = ' ' || c = '\t' || c = '\n' || c = '\r' || c = '\x0b' || c = '\x0c'

/-- Go `strings.TrimSpace` (over ASCII data). -/
def trimSpace (s : String) : String :=
  String.mk (((s.toList.dropWhile isSpaceGo).reverse.dropWhile isSpaceGo).reverse)

/-- Go `strings.TrimRight(s, "\n")`: drop all trailing newlines. -/
def trimRightNl (s : String) : String :=
  String.mk ((s.toList.reverse.dropWhile (fun c => c = '\n')).reverse)

/-- Turn a captured stdout buffer into the line list the Go code produces:
`nil` when the buffer is empty, otherwise split the newline-right-trimmed
buffer on newlines (`execCmd` / `execPipeline`). -/
def processOut (s : String) : List String :=
  if s = "" then [] else splitChar '\n' (trimRightNl s)

/-- The session configuration (struct `Backup` in backup.go). -/
structure Backup where
  target : String
  dryrun : Bool
  sourceCmd : List String
  targetCmd : List String
  deriving Repr, DecidableEq

/-- Method `isTargetVolume`: a volume is target-side when it starts with the
target root (one trailing `/` stripped) followed by `/`. -/
def isTargetVolume (b : Backup) (vol : String) : Bool :=
  goStartsWith vol (trimSuffixGo b.target "/" ++ "/")

/-- Method `buildCommand`: prepend the target or source command prefix. -/
def buildCommand (b : Backup) (isTarget : Bool) (args : List String) : List String :=
  (if isTarget then b.targetCmd else b.sourceCmd) ++ args

/-- Method `wrapCmdError`: wrap an error with the operation name and any
captured stderr text. -/
def wrapCmdError (operation stderr err : String) : String :=
  if stderr ≠ "" then "error " ++ operation ++ ": " ++ stderr ++ ": " ++ err
  else "error " ++ operation ++ ": " ++ err

/-- Function `splitSnapshot`: split `dataset@label` into its two parts;
anything that does not split into exactly two parts at `@` yields the
whole name with an empty label. -/
def splitSnapshot (fullName : String) : String × String :=
  match splitChar '@' fullName with
  | [vol, snap] => (vol, snap)
  | _ => (fullName, "")

/-- Digit value of a character (used by the timestamp parser). -/
def digitVal (c : Char) : Nat := c.toNat - 48

/-- Go `time` package leap-year rule. -/
def isLeapYear (y : Nat) : Bool :=
  y % 4 = 0 && (y % 100 ≠ 0 || y % 400 = 0)

/-- Days in a month, as Go `time.daysIn`. -/
def daysIn (m y : Nat) : Nat :=
  if m = 2 then (if isLeapYear y then 29 else 28)
  else if m = 4 || m = 6 || m = 9 || m = 11 then 30
  else 31

/-- Go `time` `getnum`: parse one or two digits; with `fixed` set, exactly
two digits are required (layout elements `01`, `02`, `04`, `05`); without
it one digit suffices (layout element `15`). -/
def getnum (fixed : Bool) : List Char → Option (Nat × List Char)
  | c1 :: c2 :: rest =>
    if c1.isDigit then
      if c2.isDigit then some (digitVal c1 * 10 + digitVal c2, rest)
      else if fixed then none else some (digitVal c1, c2 :: rest)
    else none
  | [c1] => if c1.isDigit && !fixed then some (digitVal c1, []) else none
  | [] => none

/-- Go `time` parsing of a `2006` layout element: exactly four digits. -/
def getnum4 : List Char → Option (Nat × List Char)
  | a :: b :: c :: d :: rest =>
    if a.isDigit && b.isDigit && c.isDigit && d.isDigit then
      some (digitVal a * 1000 + digitVal b * 100 + digitVal c * 10 + digitVal d, rest)
    else none
  | _ => none

/-- Match one literal layout character. -/
def litChar (c : Char) : List Char → Option (List Char)
  | c1 :: rest => if c1 = c then some rest else none
  | [] => none

/-- Go `time.Parse` with layout `2006-01-02T15:04:05`, reduced to its
success predicate: four-digit year, two-digit month/day/minute/second,
one-or-two-digit hour, literal separators, full consumption of the input,
and the range checks Go performs (month 1..12, day within the month,
hour below 24, minute and second below 60). -/
def isCanonicalLabel (s : String) : Bool :=
  (Option.isSome <| do
    let (y, r0) ← getnum4 s.toList
    let r1 ← litChar '-' r0
    let (mo, r2) ← getnum true r1
    let r3 ← litChar '-' r2
    let (d, r4) ← getnum true r3
    let r5 ← litChar 'T' r4
    let (h, r6) ← getnum false r5
    let r7 ← litChar ':' r6
    let (mi, r8) ← getnum true r7
    let r9 ← litChar ':' r8
    let (se, r10) ← getnum true r9
    if r10 = [] && 1 ≤ mo && mo ≤ 12 && 1 ≤ d && d ≤ daysIn mo y
        && h ≤ 23 && mi ≤ 59 && se ≤ 59 then
      some ()
    else none)

/-- Function `isBackupSnapshot`: a full snapshot name whose label parses
under the canonical timestamp layout. -/
def isBackupSnapshot (snapshotName : String) : Bool :=
  match splitChar '@' snapshotName with
  | [_, lab] => isCanonicalLabel lab
  | _ => false

/-- Outcome of one external invocation, as observed by the Go code:
the raw stdout buffer, the raw stderr buffer, and `some msg` when the
process failed with error text `msg` (`err.Error()` in Go). -/
structure ExecResult where
  stdout : String
  stderr : String
  err : Option String
  deriving Repr, DecidableEq

/-- Oracle for the external world: the outcome of every argv vector, and
the result of resolving `pv` on the path. -/
structure Env where
  res : List String → ExecResult
  pv : Option String

/-- A trace of the argv vectors actually started, in order. -/
abbrev Trace := List (List String)

/-- Result triple of `execCmd` / `execPipeline`: stdout lines, stderr
text, and `some msg` on failure. -/
abbrev CmdResult := List String × String × Option String

/-- Method `execCmd`: always executes one command; stdout is split into
lines; on failure the stderr text is trimmed and, when empty, replaced by
the error's own text. -/
def execCmd (env : Env) (args : List String) : Trace × CmdResult :=
  let r := env.res args
  let stdoutLines := processOut r.stdout
  match r.err with
  | none => ([args], (stdoutLines, "", none))
  | some m =>
    let stderrStr := trimSpace r.stderr
    ([args], (stdoutLines, (if stderrStr = "" then m else stderrStr), some m))

/-- Method `execPipeline`: validate (at least two stages, no empty argv)
before starting anything; start every stage; wait on all of them; the
reported error is the first failing stage's, the terminal stage's captured
output is kept, and the terminal stderr is substituted by the first
failure's text when empty.  Stage outcomes are drawn from the oracle. -/
def execPipeline (env : Env) (allCmds : List (List String)) : Trace × CmdResult :=
  if allCmds.length < 2 then
    ([], ([], "", some "pipeline needs at least 2 commands"))
  else if allCmds.any (fun c => c = []) then
    ([], ([], "", some "empty command in pipeline"))
  else
    let errs := allCmds.enum.filterMap (fun p =>
      ((env.res p.2).err).map (fun m =>
        "command " ++ toString p.1 ++ " failed: " ++ m))
    let lastCmd := allCmds.getLastD []
    let stdoutLines := processOut (env.res lastCmd).stdout
    let stderrStr := trimSpace (env.res lastCmd).stderr
    match errs with
    | [] => (allCmds, (stdoutLines, "", none))
    | e :: _ =>
      (allCmds, (stdoutLines, (if stderrStr = "" then e else stderrStr), some e))

/-- Method `query`: a read-only command, executed even in dry-run mode. -/
def query (b : Backup) (env : Env) (args : List String) : Trace × CmdResult :=
  let _ := b
  execCmd env args

/-- Method `run`: a write command, skipped (empty success) in dry-run mode. -/
def runWrite (b : Backup) (env : Env) (args : List String) : Trace × CmdResult :=
  if b.dryrun then ([], ([], "", none)) else execCmd env args

/-- Method `pipeline`: a write pipeline, skipped (empty success) in
dry-run mode. -/
def runPipeline (b : Backup) (env : Env) (cmds : List (List String)) : Trace × CmdResult :=
  if b.dryrun then ([], ([], "", none)) else execPipeline env cmds

/-- The argv vector issued by `listSnapshots`. -/
def listSnapshotsCmd (b : Backup) (vol : String) : List String :=
  buildCommand b (isTargetVolume b vol)
    ["list", "-H", "-o", "name", "-t", "snapshot", "-s", "creation", vol]

/-- Method `listSnapshots`: query the snapshot list of a volume,
oldest first. -/
def listSnapshots (b : Backup) (env : Env) (vol : String) :
    Trace × Except String (List String) :=
  let (t, (snaps, stderr, err)) := query b env (listSnapshotsCmd b vol)
  match err with
  | some e => (t, .error (wrapCmdError "listing snapshots" stderr e))
  | none => (t, .ok snaps)

/-- The scan inside `getLatestMatchingSnapshot`, expressed on the reversed
(so newest-first) source list: skip entries without a derivable label,
return the first whose label also exists under the target dataset. -/
def findMatchLoop (target : String) (targetSnaps : List String) :
    List String → Option String
  | [] => none
  | s :: rest =>
    let snapPart := (splitSnapshot s).2
    if snapPart = "" then findMatchLoop target targetSnaps rest
    else if targetSnaps.contains (target ++ "@" ++ snapPart) then some s
    else findMatchLoop target targetSnaps rest

/-- Method `getLatestMatchingSnapshot`: list both sides, scan the source
list newest-to-oldest for a label that exists on the target. -/
def getLatestMatchingSnapshot (b : Backup) (env : Env) (source target : String) :
    Trace × Except String String :=
  let (t1, r1) := listSnapshots b env source
  match r1 with
  | .error e => (t1, .error e)
  | .ok sourceSnaps =>
    let (t2, r2) := listSnapshots b env target
    match r2 with
    | .error e => (t1 ++ t2, .error e)
    | .ok targetSnaps =>
      match findMatchLoop target targetSnaps sourceSnaps.reverse with
      | some s => (t1 ++ t2, .ok s)
      | none => (t1 ++ t2, .error "no matching snapshot found")

/-- The argv vector issued by `datasetExists`. -/
def datasetExistsCmd (b : Backup) (vol : String) : List String :=
  buildCommand b (isTargetVolume b vol) ["list", "-H", "-t", "filesystem,volume", vol]

/-- Method `datasetExists`: existence is defined as the probe query
returning success. -/
def datasetExists (b : Backup) (env : Env) (vol : String) : Trace × Bool :=
  let (t, (_, _, err)) := query b env (datasetExistsCmd b vol)
  (t, err.isNone)

/-- Method `createSnapshot`: synthesize the timestamp label (`now`, the
formatted `time.Now()`); in dry-run mode return it without touching
anything; otherwise issue the snapshot command. -/
def createSnapshot (b : Backup) (env : Env) (now vol : String) (recurse : Bool) :
    Trace × Except String String :=
  if b.dryrun then ([], .ok now)
  else
    let snap := vol ++ "@" ++ now
    let args := ["snapshot"] ++ (if recurse then ["-r"] else []) ++ [snap]
    let cmdArgs := buildCommand b false args
    let (t, (_, stderr, err)) := runWrite b env cmdArgs
    match err with
    | some e => (t, .error (wrapCmdError "creating snapshot" stderr e))
    | none => (t, .ok now)

/-- Go `strconv.ParseInt(s, 10, 64)`: optional sign, decimal digits,
64-bit range check; `none` models a parse error. -/
def parseInt64 (s : String) : Option Int :=
  match s.toList with
  | [] => none
  | c :: rest =>
    let signed : Bool × List Char :=
      if c = '-' then (true, rest)
      else if c = '+' then (false, rest)
      else (false, c :: rest)
    let neg := signed.1
    let digits := signed.2
    if digits = [] || !digits.all Char.isDigit then none
    else
      let n : Nat := digits.foldl (fun acc d => acc * 10 + digitVal d) 0
      if neg then (if n ≤ 2 ^ 63 then some (-(n : Int)) else none)
      else (if n ≤ 2 ^ 63 - 1 then some (n : Int) else none)

/-- The size-line scan inside `dryrunSingleBackup`: find the first line
whose first tab-separated field is `size` and parse its second field;
without such a line the running size stays 0.  (Where the Go code would
panic on a line that is exactly `size` with no second field, this model
reports a parse error; no claim exercises that shape.) -/
def parseSizeLoop : List String → Except String Int
  | [] => .ok 0
  | l :: rest =>
    let parts := splitChar '\t' (trimSpace l)
    if parts.headD "" = "size" then
      match parseInt64 (parts.getD 1 "") with
      | some v => .ok v
      | none => .error "size parse error"
    else parseSizeLoop rest

/-- The estimation argv vector (`zfs send -n -P`), incremental when a
base snapshot is given. -/
def estimateCmd (b : Backup) (startSnap endSnap : String) : List String :=
  if startSnap ≠ "" then buildCommand b false ["send", "-n", "-P", "-i", startSnap, endSnap]
  else buildCommand b false ["send", "-n", "-P", endSnap]

/-- Method `dryrunSingleBackup`: estimate the send size; a query, so it
always executes; a parsed size of zero is an error. -/
def dryrunSingleBackup (b : Backup) (env : Env) (startSnap endSnap : String) :
    Trace × Except String Int :=
  let (t, (lines, stderr, err)) := query b env (estimateCmd b startSnap endSnap)
  match err with
  | some e => (t, .error (wrapCmdError "estimating backup size" stderr e))
  | none =>
    match parseSizeLoop lines with
    | .error e => (t, .error e)
    | .ok size => if size = 0 then (t, .error "backup size 0") else (t, .ok size)

/-- The real send argv vector, incremental when a base snapshot is given. -/
def sendCmd (b : Backup) (startSnap endSnap : String) : List String :=
  if startSnap ≠ "" then buildCommand b false ["send", "-i", startSnap, endSnap]
  else buildCommand b false ["send", endSnap]

/-- Method `runSingleBackup`: the transfer pipeline `send` → optional
`pv` progress filter (when resolvable and the size is positive) →
`receive -F targetRoot/fs`. -/
def runSingleBackup (b : Backup) (env : Env) (fs startSnap endSnap : String)
    (size : Int) : Trace × Except String Unit :=
  let sendArgs := sendCmd b startSnap endSnap
  let receiveArgs := buildCommand b true ["receive", "-F", b.target ++ "/" ++ fs]
  let allCmds := [sendArgs] ++
    (match env.pv with
     | some pvPath => if size > 0 then [[pvPath, "-s", toString size]] else []
     | none => []) ++ [receiveArgs]
  let (t, (_, stderr, err)) := runPipeline b env allCmds
  match err with
  | some e => (t, .error (wrapCmdError "during backup" stderr e))
  | none => (t, .ok ())

/-- The argv vector issued by `deleteSnapshot`. -/
def destroyCmd (b : Backup) (recurse : Bool) (snap : String) : List String :=
  buildCommand b (isTargetVolume b snap)
    (["destroy"] ++ (if recurse then ["-r"] else []) ++ [snap])

/-- Method `deleteSnapshot`: destroy one snapshot (a write command,
skipped in dry-run mode). -/
def deleteSnapshot (b : Backup) (env : Env) (snap : String) (recurse : Bool) :
    Trace × Except String Unit :=
  let (t, (_, stderr, err)) := runWrite b env (destroyCmd b recurse snap)
  match err with
  | some e => (t, .error (wrapCmdError "deleting snapshot" stderr e))
  | none => (t, .ok ())

/-- The deletion scan inside `cleanSnapshots`, expressed on the reversed
(newest-first) snapshot list with the running count of retained canonical
snapshots: foreign labels are skipped, the first `retain` canonical
snapshots are kept, every later canonical snapshot is destroyed, and a
failed destroy aborts immediately. -/
def cleanLoop (b : Backup) (env : Env) (retain : Nat) (recurse : Bool) :
    List String → Nat → Trace × Except String Unit
  | [], _ => ([], .ok ())
  | snap :: rest, saved =>
    if !isBackupSnapshot snap then cleanLoop b env retain recurse rest saved
    else if saved < retain then cleanLoop b env retain recurse rest (saved + 1)
    else
      match deleteSnapshot b env snap recurse with
      | (t, .ok _) =>
        let (t2, r) := cleanLoop b env retain recurse rest saved
        (t ++ t2, r)
      | (t, .error e) => (t, .error e)

/-- Method `cleanSnapshots`: list the snapshots, clamp `retain` to at
least 1, short-circuit when the whole list is within the quota, and
otherwise run the newest-to-oldest deletion scan. -/
def cleanSnapshots (b : Backup) (env : Env) (vol : String) (retain : Int)
    (recurse : Bool) : Trace × Except String Unit :=
  let (t0, r0) := listSnapshots b env vol
  match r0 with
  | .error e => (t0, .error e)
  | .ok snaps =>
    let retainN : Nat := if retain < 1 then 1 else retain.toNat
    if snaps.length ≤ retainN then (t0, .ok ())
    else
      let (t1, r) := cleanLoop b env retainN recurse snaps.reverse 0
      (t0 ++ t1, r)

/-- The base-determination phase of `backupFilesystem`: probe the target
dataset; when it exists, try the matcher, falling back to the empty base
(full transfer) on a matcher failure; when it does not exist, use the
empty base without invoking the matcher. -/
def determineBase (b : Backup) (env : Env) (fs targetVol : String) : Trace × String :=
  let (t0, ex) := datasetExists b env targetVol
  if ex then
    match getLatestMatchingSnapshot b env fs targetVol with
    | (t1, .ok s) => (t0 ++ t1, s)
    | (t1, .error _) => (t0 ++ t1, "")
  else (t0, "")

/-- The estimation-and-transfer phase of `backupFilesystem`: estimate,
swallowing an estimation failure in dry-run mode; then stop (dry-run) or
run the real transfer. -/
def transferPhase (b : Backup) (env : Env) (fs startSnap fsSnap : String) :
    Trace × Except String Unit :=
  let (t2, est) := dryrunSingleBackup b env startSnap fsSnap
  match est with
  | .error e => if b.dryrun then (t2, .ok ()) else (t2, .error e)
  | .ok size =>
    if b.dryrun then (t2, .ok ())
    else
      let (t3, r) := runSingleBackup b env fs startSnap fsSnap size
      (t2 ++ t3, r)

/-- Method `backupFilesystem`: determine the incremental base for
`targetRoot/fs`, then estimate and transfer. -/
def backupFilesystem (b : Backup) (env : Env) (fs snapName : String) :
    Trace × Except String Unit :=
  let fsSnap := fs ++ "@" ++ snapName
  let targetVol := b.target ++ "/" ++ fs
  let (t0, startSnap) := determineBase b env fs targetVol
  let (t1, r) := transferPhase b env fs startSnap fsSnap
  (t0 ++ t1, r)

/-- The three `BackupOption` constructors of backup.go; none of them can
itself fail. -/
inductive BackupOpt where
  | dryRun
  | sourceCommand (cmd : List String)
  | targetCommand (cmd : List String)
  deriving Repr, DecidableEq

/-- Apply one option to the session under construction. -/
def applyOpt (b : Backup) (o : BackupOpt) : Backup :=
  match o with
  | .dryRun => { b with dryrun := true }
  | .sourceCommand c => { b with sourceCmd := c }
  | .targetCommand c => { b with targetCmd := c }

/-- Function `NewBackup`: validate the target root, apply the options
over the `zfs`/`zfs` defaults, then validate both command prefixes.
Purely a construction step: no external command is involved. -/
def NewBackup (target : String) (opts : List BackupOpt) : Except String Backup :=
  if target = "" then .error "target filesystem cannot be empty"
  else
    let b := opts.foldl applyOpt
      { target := target, dryrun := false, sourceCmd := ["zfs"], targetCmd := ["zfs"] }
    if b.sourceCmd = [] then .error "source command cannot be empty"
    else if b.targetCmd = [] then .error "target command cannot be empty"
    else .ok b

/-- One invocation of the execution layer, tagged by its category:
observational (`query`) or mutating (`write` command, `pipe` pipeline). -/
inductive Op where
  | query (args : List String)
  | write (args : List String)
  | pipe (cmds : List (List String))
  deriving Repr, DecidableEq

/-- Whether an invocation is observational. -/
def Op.isQuery : Op → Bool
  | .query _ => true
  | _ => false

/-- Dispatch one invocation through the corresponding method. -/
def execOp (b : Backup) (env : Env) : Op → Trace × CmdResult
  | .query a => query b env a
  | .write a => runWrite b env a
  | .pipe cs => runPipeline b env cs

/-- Execute a sequence of invocations, concatenating their traces. -/
def execOps (b : Backup) (env : Env) : List Op → Trace × List CmdResult
  | [] => ([], [])
  | op :: rest =>
    let (t, r) := execOp b env op
    let (ts, rs) := execOps b env rest
    (t ++ ts, r :: rs)

/-! Concrete sessions and oracles used to exercise the definitions. -/

/-- A plain non-dry-run session with target root `backup`. -/
def exB : Backup :=
  { target := "backup", dryrun := false, sourceCmd := ["zfs"], targetCmd := ["zfs"] }

/-- Five canonical backup snapshots of `tank/data`, oldest first. -/
def ex5Snaps : List String :=
  ["tank/data@2024-01-01T00:00:00", "tank/data@2024-01-02T00:00:00",
   "tank/data@2024-01-03T00:00:00", "tank/data@2024-01-04T00:00:00",
   "tank/data@2024-01-05T00:00:00"]

/-- The snapshot list above as a raw stdout buffer. -/
def ex5Stdout : String :=
  "tank/data@2024-01-01T00:00:00\ntank/data@2024-01-02T00:00:00\ntank/data@2024-01-03T00:00:00\ntank/data@2024-01-04T00:00:00\ntank/data@2024-01-05T00:00:00\n"

/-- The snapshot-list argv for `tank/data` under `exB`. -/
def ex5List : List String := listSnapshotsCmd exB "tank/data"

/-- Oracle: the snapshot list of `tank/data` holds `ex5Snaps`; every
invocation succeeds. -/
def ex5EnvOk : Env :=
  { res := fun args =>
      if args = ex5List then
        { stdout := ex5Stdout, stderr := "", err := none }
      else { stdout := "", stderr := "", err := none },
    pv := none }

/-- Oracle as `ex5EnvOk`, except that destroying the second-oldest
snapshot (the second deletion candidate reached by the scan) fails. -/
def ex5EnvFail : Env :=
  { res := fun args =>
      if args = ex5List then
        { stdout := ex5Stdout, stderr := "", err := none }
      else if args = destroyCmd exB false "tank/data@2024-01-02T00:00:00" then
        { stdout := "", stderr := "cannot destroy", err := some "exit status 1" }
      else { stdout := "", stderr := "", err := none },
    pv := none }

/-- Oracle for the C1 witness: `tank/data` carries three canonical
snapshots with one foreign snapshot interleaved; every call succeeds. -/
def exMixEnv : Env :=
  { res := fun args =>
      if args = ex5List then
        { stdout := "tank/data@2024-01-01T00:00:00\ntank/data@manual\ntank/data@2024-01-02T00:00:00\ntank/data@2024-01-03T00:00:00\n",
          stderr := "", err := none }
      else { stdout := "", stderr := "", err := none },
    pv := none }

/-- Oracle for the C3 witness: `tank/data` holds a canonical snapshot,
a foreign snapshot `snapB`, and a newer canonical snapshot; the target
dataset `backup/tank/data` shares the oldest canonical label and
`snapB`, and also carries an unrelated target-only snapshot. -/
def exMatchEnv : Env :=
  { res := fun args =>
      if args = listSnapshotsCmd exB "tank/data" then
        { stdout := "tank/data@2024-01-01T00:00:00\ntank/data@snapB\ntank/data@2024-01-02T00:00:00\n",
          stderr := "", err := none }
      else if args = listSnapshotsCmd exB "backup/tank/data" then
        { stdout := "backup/tank/data@2024-01-01T00:00:00\nbackup/tank/data@snapB\nbackup/tank/data@other\n",
          stderr := "", err := none }
      else { stdout := "", stderr := "", err := none },
    pv := none }

/-- A three-stage pipeline whose middle stage is the progress filter. -/
def ex3Pipe : List (List String) :=
  [["zfs", "send", "tank@s"], ["pv"], ["zfs", "receive", "backup/tank"]]

/-- Oracle for the C4 witness: the middle stage fails with no terminal
stderr; the terminal stage succeeds and produces one stdout line. -/
def ex3Env : Env :=
  { res := fun args =>
      if args = ["pv"] then { stdout := "", stderr := "", err := some "exit status 1" }
      else if args = ["zfs", "receive", "backup/tank"] then
        { stdout := "received\n", stderr := "", err := none }
      else { stdout := "", stderr := "", err := none },
    pv := none }

/-- The dry-run variant of `exB`. -/
def exDryB : Backup :=
  { target := "backup", dryrun := true, sourceCmd := ["zfs"], targetCmd := ["zfs"] }

/-- Oracle for the C6 and C7 witnesses: the existence probe for
`backup/tank/data` fails (target dataset absent) and every other call
succeeds with an estimate output whose parsed size is zero. -/
def exZeroEnv : Env :=
  { res := fun args =>
      if args = datasetExistsCmd exB "backup/tank/data" then
        { stdout := "", stderr := "does not exist", err := some "exit status 1" }
      else { stdout := "size\t0\n", stderr := "", err := none },
    pv := none }

/-! Helper lemmas about the execution layer. -/

/-- A successful destroy outside dry-run mode starts exactly its own
argv vector and succeeds. -/
theorem deleteSnapshot_ok (b : Backup) (env : Env) (snap : String) (recurse : Bool)
    (hdry : b.dryrun = false)
    (hok : (env.res (destroyCmd b recurse snap)).err = none) :
    deleteSnapshot b env snap recurse = ([destroyCmd b recurse snap], .ok ()) := by
  simp [deleteSnapshot, runWrite, execCmd, hdry, hok]

/-- A successful snapshot-list query returns its processed stdout lines. -/
theorem listSnapshots_ok (b : Backup) (env : Env) (vol : String) (snaps : List String)
    (hok : (env.res (listSnapshotsCmd b vol)).err = none)
    (hsnaps : snaps = processOut (env.res (listSnapshotsCmd b vol)).stdout) :
    listSnapshots b env vol = ([listSnapshotsCmd b vol], .ok snaps) := by
  simp [listSnapshots, query, execCmd, hok, hsnaps]

/-- The deletion scan when every destroy succeeds: with `saved` canonical
snapshots already retained, it destroys exactly the canonical entries
beyond the next `retain - saved` ones, in scan order. -/
theorem cleanLoop_all_ok (b : Backup) (env : Env) (retain : Nat) (recurse : Bool)
    (hdry : b.dryrun = false)
    (hok : ∀ args, (env.res args).err = none) :
    ∀ (l : List String) (saved : Nat), saved ≤ retain →
      cleanLoop b env retain recurse l saved =
        (((l.filter (fun s => isBackupSnapshot s)).drop (retain - saved)).map
          (destroyCmd b recurse), .ok ()) := by
  intro l
  induction l with
  | nil => intro saved _; simp [cleanLoop]
  | cons snap rest ih =>
    intro saved hs
    by_cases hb : isBackupSnapshot snap
    · by_cases hlt : saved < retain
      · have h1 : retain - saved = (retain - (saved + 1)) + 1 := by omega
        rw [cleanLoop]
        simp only [hb, Bool.not_true, Bool.false_eq_true, if_false, hlt, if_true]
        rw [ih (saved + 1) (by omega), List.filter_cons_of_pos hb, h1,
          List.drop_succ_cons]
      · have hsr : retain - saved = 0 := by omega
        rw [cleanLoop]
        simp only [hb, Bool.not_true, Bool.false_eq_true, if_false, hlt, if_true]
        rw [deleteSnapshot_ok b env snap recurse hdry (hok _)]
        rw [ih saved hs, List.filter_cons_of_pos hb, hsr, List.drop_zero]
        simp [hsr]
    · rw [cleanLoop]
      simp only [hb, Bool.not_false, if_true]
      rw [ih saved hs, List.filter_cons_of_neg (by simp [hb])]

/-- When every source entry has a derivable nonempty label, the matcher
scan is `List.find?`. -/
theorem findMatchLoop_eq_find (target : String) (ts : List String) :
    ∀ l : List String, (∀ s ∈ l, (splitSnapshot s).2 ≠ "") →
      findMatchLoop target ts l =
        l.find? (fun s => ts.contains (target ++ "@" ++ (splitSnapshot s).2)) := by
  intro l
  induction l with
  | nil => intro _; rfl
  | cons s rest ih =>
    intro hwf
    have hs : (splitSnapshot s).2 ≠ "" := hwf s (List.mem_cons_self s rest)
    rw [findMatchLoop, if_neg hs]
    by_cases hc : ts.contains (target ++ "@" ++ (splitSnapshot s).2) = true
    · rw [if_pos hc]
      symm
      apply List.find?_cons_of_pos
      exact hc
    · rw [if_neg hc, ih (fun x hx => hwf x (List.mem_cons_of_mem s hx))]
      symm
      apply List.find?_cons_of_neg
      exact hc

/-! Claim theorems. -/

/-- C8: cleanup invoked with retain = 0 makes exactly the same keep/delete
decisions (same trace, same result) as retain = 1: the retain count is
clamped to a minimum of 1 before any decision, including the
short-circuit length comparison. -/
theorem cleanSnapshots_retain_clamp (b : Backup) (env : Env) (vol : String)
    (recurse : Bool) :
    cleanSnapshots b env vol 0 recurse = cleanSnapshots b env vol 1 recurse := by
  unfold cleanSnapshots
  norm_num

/-- C10 counterexample: with target root `backup/` (trailing slash), the
target root itself is classified target-side, not source-side as the
claim states. -/
theorem isTargetVolume_root_cex :
    isTargetVolume
      { target := "backup/", dryrun := false, sourceCmd := ["zfs"], targetCmd := ["zfs"] }
      "backup/" = true := rfl

/-- C10 (amended): `isTargetVolume` holds exactly when the path begins
with the target root — one trailing `/` stripped — followed by `/`; the
target root itself is classified source-side whenever the target root
does not end in `/` (a root ending in `/` is itself classified
target-side); and a path merely sharing the root as a string prefix
without the separator, such as `backupfoo` under root `backup`, is
classified source-side. -/
theorem isTargetVolume_spec (b : Backup) (p : String) :
    (isTargetVolume b p = goStartsWith p (trimSuffixGo b.target "/" ++ "/"))
    ∧ (goEndsWith b.target "/" = false → isTargetVolume b b.target = false)
    ∧ (b.target = "backup" → isTargetVolume b "backupfoo" = false) := by
  refine ⟨rfl, ?_, ?_⟩
  · intro h
    have htrim : trimSuffixGo b.target "/" = b.target := by
      unfold trimSuffixGo
      simp [h]
    unfold isTargetVolume
    rw [htrim, Bool.eq_false_iff]
    intro hpre
    unfold goStartsWith at hpre
    rw [List.isPrefixOf_iff_prefix] at hpre
    have hlen := hpre.length_le
    have hsplit : (b.target ++ "/").toList = b.target.toList ++ "/".toList := rfl
    rw [hsplit] at hlen
    simp at hlen
  · intro h
    unfold isTargetVolume
    rw [h]
    rfl

/-- C10 witness: the amended statement discharged on the session `exB`
(target root `backup`, no trailing slash). -/
theorem isTargetVolume_spec_witness :
    goEndsWith exB.target "/" = false
    ∧ isTargetVolume exB exB.target = false
    ∧ isTargetVolume exB "backupfoo" = false :=
  ⟨rfl, (isTargetVolume_spec exB "backup/data").2.1 rfl,
    (isTargetVolume_spec exB "backup/data").2.2 rfl⟩

/-- C1: for every snapshot list (oldest first) and retain count r ≥ 1,
when every external call succeeds, cleanup destroys exactly the canonical
snapshots beyond the newest `r` ones — the trace is the list query
followed by one destroy per candidate — so it keeps exactly
min(|canonical|, r) canonical snapshots, namely the newest ones, never
selects a foreign-labeled snapshot, and deletes nothing at all when the
total snapshot count is within r. -/
theorem cleanSnapshots_retention (b : Backup) (env : Env) (vol : String) (r : Int)
    (recurse : Bool) (snaps canon deleted : List String)
    (hr : 1 ≤ r) (hdry : b.dryrun = false)
    (hok : ∀ args, (env.res args).err = none)
    (hsnaps : snaps = processOut (env.res (listSnapshotsCmd b vol)).stdout)
    (hcanon : canon = snaps.filter (fun s => isBackupSnapshot s))
    (hdel : deleted = canon.reverse.drop r.toNat) :
    cleanSnapshots b env vol r recurse =
      (listSnapshotsCmd b vol :: deleted.map (destroyCmd b recurse), .ok ())
    ∧ (∀ s ∈ deleted, isBackupSnapshot s = true)
    ∧ canon.length - deleted.length = min canon.length r.toNat
    ∧ deleted.reverse = canon.take (canon.length - r.toNat)
    ∧ (snaps.length ≤ r.toNat → deleted = []) := by
  have hlen : deleted.length = canon.length - r.toNat := by
    rw [hdel, List.length_drop, List.length_reverse]
  have hshort : snaps.length ≤ r.toNat → deleted = [] := by
    intro hle
    rw [hdel]
    apply List.drop_eq_nil_of_le
    rw [List.length_reverse, hcanon]
    calc (snaps.filter (fun s => isBackupSnapshot s)).length
        ≤ snaps.length := List.length_filter_le _ _
      _ ≤ r.toNat := hle
  refine ⟨?_, ?_, ?_, ?_, hshort⟩
  · unfold cleanSnapshots
    rw [listSnapshots_ok b env vol snaps (hok _) hsnaps]
    have hnlt : ¬ (r < 1) := by omega
    simp only [hnlt, if_false]
    by_cases hcase : snaps.length ≤ r.toNat
    · simp only [hcase, if_true]
      rw [hshort hcase]
      rfl
    · simp only [hcase, if_false]
      rw [cleanLoop_all_ok b env r.toNat recurse hdry hok snaps.reverse 0 (by omega)]
      rw [List.filter_reverse, Nat.sub_zero, ← hcanon, ← hdel]
      rfl
  · intro s hsmem
    rw [hdel] at hsmem
    have h1 : s ∈ canon.reverse := List.mem_of_mem_drop hsmem
    rw [List.mem_reverse, hcanon, List.mem_filter] at h1
    exact h1.2
  · omega
  · rw [hdel, List.drop_reverse, List.reverse_reverse]

/-- Every invocation in `exMixEnv` succeeds. -/
theorem exMixEnv_ok : ∀ args, (exMixEnv.res args).err = none := by
  intro args
  by_cases h : args = ex5List <;> simp [exMixEnv, h]

/-- C1 witness: retain 2 over three canonical and one foreign snapshot
destroys exactly the oldest canonical snapshot and skips the foreign
one. -/
theorem cleanSnapshots_retention_witness :
    (1 ≤ (2 : Int)) ∧ exB.dryrun = false
    ∧ (cleanSnapshots exB exMixEnv "tank/data" 2 false =
        (listSnapshotsCmd exB "tank/data" ::
          ["tank/data@2024-01-01T00:00:00"].map (destroyCmd exB false), .ok ())
      ∧ (∀ s ∈ ["tank/data@2024-01-01T00:00:00"], isBackupSnapshot s = true)
      ∧ 3 - 1 = min 3 2
      ∧ ["tank/data@2024-01-01T00:00:00"].reverse =
          ["tank/data@2024-01-01T00:00:00", "tank/data@2024-01-02T00:00:00",
           "tank/data@2024-01-03T00:00:00"].take (3 - 2)
      ∧ (4 ≤ 2 → ["tank/data@2024-01-01T00:00:00"] = [])) :=
  ⟨by decide, rfl,
    cleanSnapshots_retention exB exMixEnv "tank/data" 2 false
      ["tank/data@2024-01-01T00:00:00", "tank/data@manual",
       "tank/data@2024-01-02T00:00:00", "tank/data@2024-01-03T00:00:00"]
      ["tank/data@2024-01-01T00:00:00", "tank/data@2024-01-02T00:00:00",
       "tank/data@2024-01-03T00:00:00"]
      ["tank/data@2024-01-01T00:00:00"]
      (by decide) rfl exMixEnv_ok rfl rfl rfl⟩

/-- C2 counterexample: with five canonical snapshots (oldest first) and
retain = 2, the three oldest are passed to destroy, but in
newest-to-oldest scan order, not the oldest-to-newest order the claim
states. -/
theorem cleanSnapshots_order_cex :
    cleanSnapshots exB ex5EnvOk "tank/data" 2 false =
      ([ex5List,
        destroyCmd exB false "tank/data@2024-01-03T00:00:00",
        destroyCmd exB false "tank/data@2024-01-02T00:00:00",
        destroyCmd exB false "tank/data@2024-01-01T00:00:00"], .ok ())
    ∧ (cleanSnapshots exB ex5EnvOk "tank/data" 2 false).1 ≠
      [ex5List,
       destroyCmd exB false "tank/data@2024-01-01T00:00:00",
       destroyCmd exB false "tank/data@2024-01-02T00:00:00",
       destroyCmd exB false "tank/data@2024-01-03T00:00:00"] := by
  constructor
  · rfl
  · decide

/-- C2 (amended): retain = 2 over five canonical snapshots and no
foreign snapshots passes exactly the three oldest snapshots to destroy,
in newest-to-oldest scan order; and when the second destroy call fails,
cleanup aborts immediately, never passing the remaining (oldest)
candidate to destroy. -/
theorem cleanSnapshots_five_retain_two :
    cleanSnapshots exB ex5EnvOk "tank/data" 2 false =
      ([ex5List,
        destroyCmd exB false "tank/data@2024-01-03T00:00:00",
        destroyCmd exB false "tank/data@2024-01-02T00:00:00",
        destroyCmd exB false "tank/data@2024-01-01T00:00:00"], .ok ())
    ∧ cleanSnapshots exB ex5EnvFail "tank/data" 2 false =
      ([ex5List,
        destroyCmd exB false "tank/data@2024-01-03T00:00:00",
        destroyCmd exB false "tank/data@2024-01-02T00:00:00"],
       .error "error deleting snapshot: cannot destroy: exit status 1") :=
  ⟨rfl, rfl⟩

/-- C3: over well-formed source snapshot names (each carrying exactly one
`@` and a nonempty label), the matcher result is the last element of the
source list — i.e. the newest, the one nearest the end — whose label
exists as `target@label` in the target list (`find?` over the reversed
source list), and in particular a "no matching snapshot found" failure
when no source label appears on the target, regardless of target-only
snapshots. -/
theorem getLatestMatchingSnapshot_spec (b : Backup) (env : Env)
    (source target : String) (srcSnaps tgtSnaps : List String)
    (hsrcOk : (env.res (listSnapshotsCmd b source)).err = none)
    (htgtOk : (env.res (listSnapshotsCmd b target)).err = none)
    (hsrc : srcSnaps = processOut (env.res (listSnapshotsCmd b source)).stdout)
    (htgt : tgtSnaps = processOut (env.res (listSnapshotsCmd b target)).stdout)
    (hwf : ∀ s ∈ srcSnaps, (splitSnapshot s).2 ≠ "") :
    ((getLatestMatchingSnapshot b env source target).2 =
      match srcSnaps.reverse.find?
          (fun s => tgtSnaps.contains (target ++ "@" ++ (splitSnapshot s).2)) with
      | some s => .ok s
      | none => .error "no matching snapshot found")
    ∧ ((∀ s ∈ srcSnaps,
          tgtSnaps.contains (target ++ "@" ++ (splitSnapshot s).2) = false) →
      (getLatestMatchingSnapshot b env source target).2 =
        .error "no matching snapshot found") := by
  have hmain : (getLatestMatchingSnapshot b env source target).2 =
      match srcSnaps.reverse.find?
          (fun s => tgtSnaps.contains (target ++ "@" ++ (splitSnapshot s).2)) with
      | some s => .ok s
      | none => .error "no matching snapshot found" := by
    unfold getLatestMatchingSnapshot
    rw [listSnapshots_ok b env source srcSnaps hsrcOk hsrc,
      listSnapshots_ok b env target tgtSnaps htgtOk htgt]
    dsimp only
    rw [findMatchLoop_eq_find target tgtSnaps srcSnaps.reverse
      (fun s hs => hwf s (List.mem_reverse.mp hs))]
    cases srcSnaps.reverse.find?
        (fun s => tgtSnaps.contains (target ++ "@" ++ (splitSnapshot s).2)) <;> rfl
  refine ⟨hmain, fun hno => ?_⟩
  rw [hmain]
  have hnone : srcSnaps.reverse.find?
      (fun s => tgtSnaps.contains (target ++ "@" ++ (splitSnapshot s).2)) = none := by
    rw [List.find?_eq_none]
    intro x hx
    rw [hno x (List.mem_reverse.mp hx)]
    simp
  rw [hnone]

/-- C3 witness: the matcher returns the newest shared snapshot `snapB`,
skipping the newer source-only snapshot and ignoring the target-only
snapshot `other`. -/
theorem getLatestMatchingSnapshot_spec_witness :
    (∀ s ∈ ["tank/data@2024-01-01T00:00:00", "tank/data@snapB",
            "tank/data@2024-01-02T00:00:00"], (splitSnapshot s).2 ≠ "")
    ∧ (getLatestMatchingSnapshot exB exMatchEnv "tank/data" "backup/tank/data").2 =
        .ok "tank/data@snapB" :=
  ⟨by decide,
    (getLatestMatchingSnapshot_spec exB exMatchEnv "tank/data" "backup/tank/data"
      ["tank/data@2024-01-01T00:00:00", "tank/data@snapB",
       "tank/data@2024-01-02T00:00:00"]
      ["backup/tank/data@2024-01-01T00:00:00", "backup/tank/data@snapB",
       "backup/tank/data@other"]
      rfl rfl rfl rfl (by decide)).1⟩

/-- The per-stage failure collection: when stage `i` is the first failing
stage, the collected error list starts with stage `i`'s wrapped error. -/
theorem firstErr_filterMap (env : Env) :
    ∀ (l : List (List String)) (n i : Nat) (hi : i < l.length) (m : String),
      (env.res (l.get ⟨i, hi⟩)).err = some m →
      (∀ j (hj : j < i), (env.res (l.get ⟨j, by omega⟩)).err = none) →
      ∃ tl, (List.enumFrom n l).filterMap
          (fun p => ((env.res p.2).err).map
            (fun msg => "command " ++ toString p.1 ++ " failed: " ++ msg)) =
        ("command " ++ toString (n + i) ++ " failed: " ++ m) :: tl := by
  intro l
  induction l with
  | nil => intro n i hi; simp at hi
  | cons c rest ih =>
    intro n i hi m hfail hfirst
    have hlen2 : (c :: rest).length = rest.length + 1 := by simp
    cases i with
    | zero =>
      have hc : (env.res c).err = some m := hfail
      refine ⟨(List.enumFrom (n + 1) rest).filterMap
          (fun p => ((env.res p.2).err).map
            (fun msg => "command " ++ toString p.1 ++ " failed: " ++ msg)), ?_⟩
      simp only [List.enumFrom, List.filterMap_cons, hc, Option.map_some', Nat.add_zero]
    | succ i' =>
      have h0 : (env.res c).err = none := hfirst 0 (by omega)
      have hi' : i' < rest.length := by omega
      have hfail' : (env.res (rest.get ⟨i', hi'⟩)).err = some m := hfail
      have hfirst' : ∀ j (hj : j < i'), (env.res (rest.get ⟨j, by omega⟩)).err = none :=
        fun j hj => hfirst (j + 1) (by omega)
      obtain ⟨tl, htl⟩ := ih (n + 1) i' hi' m hfail' hfirst'
      have harith : n + 1 + i' = n + (i' + 1) := by omega
      rw [harith] at htl
      refine ⟨tl, ?_⟩
      simp only [List.enumFrom, List.filterMap_cons, h0, Option.map_none']
      exact htl

/-- C4: in a validated multi-stage pipeline whose first failing stage (in
start order) is stage `i`, the reported error is stage `i`'s error,
naming that stage; the terminal stage's captured stdout lines are still
returned; and when the terminal stage's trimmed stderr is empty, the
first failing stage's error text is substituted as the diagnostic
string. -/
theorem execPipeline_firstFailure (env : Env) (allCmds : List (List String))
    (i : Nat) (hi : i < allCmds.length) (m : String)
    (hlen : 2 ≤ allCmds.length)
    (hne : ∀ c ∈ allCmds, c ≠ [])
    (hfail : (env.res (allCmds.get ⟨i, hi⟩)).err = some m)
    (hfirst : ∀ j (hj : j < i), (env.res (allCmds.get ⟨j, by omega⟩)).err = none) :
    execPipeline env allCmds =
      (allCmds,
       (processOut (env.res (allCmds.getLastD [])).stdout,
        (if trimSpace (env.res (allCmds.getLastD [])).stderr = ""
         then "command " ++ toString i ++ " failed: " ++ m
         else trimSpace (env.res (allCmds.getLastD [])).stderr),
        some ("command " ++ toString i ++ " failed: " ++ m))) := by
  obtain ⟨tl, htl⟩ := firstErr_filterMap env allCmds 0 i hi m hfail hfirst
  rw [Nat.zero_add] at htl
  unfold execPipeline
  rw [if_neg (by omega)]
  rw [if_neg (by
    intro hany
    rw [List.any_eq_true] at hany
    obtain ⟨c, hc, hceq⟩ := hany
    exact hne c hc (by simpa using hceq))]
  rw [show allCmds.enum = List.enumFrom 0 allCmds from rfl, htl]

/-- C4 witness: stage 2 of 3 fails while stages 1 and 3 succeed; the
reported error names command 1 (zero-based), the terminal stdout line is
returned, and the empty terminal stderr is substituted by the failure
text. -/
theorem execPipeline_firstFailure_witness :
    2 ≤ ex3Pipe.length ∧ (∀ c ∈ ex3Pipe, c ≠ [])
    ∧ execPipeline ex3Env ex3Pipe =
      (ex3Pipe,
       (["received"], "command 1 failed: exit status 1",
        some "command 1 failed: exit status 1")) :=
  ⟨by decide, by decide,
    execPipeline_firstFailure ex3Env ex3Pipe 1 (by decide) "exit status 1"
      (by decide) (by decide) rfl
      (fun j hj => by
        have hj0 : j = 0 := by omega
        subst hj0
        rfl)⟩

/-- C5: in a dry-run session, every mutating invocation (write command,
write pipeline, snapshot creation, snapshot destroy) starts no external
process and returns an empty success result, while every observational
invocation behaves exactly as in the non-dry-run session; consequently,
over any sequence of invocations the commands started are exactly the
commands its observational sub-sequence starts without dry-run. -/
theorem dryRun_noMutation (b : Backup) (env : Env) (hdry : b.dryrun = true) :
    (∀ ops : List Op, (execOps b env ops).1 =
      (execOps { b with dryrun := false } env (ops.filter Op.isQuery)).1)
    ∧ (∀ args, execOp b env (.query args) =
        execOp { b with dryrun := false } env (.query args))
    ∧ (∀ args, execOp b env (.write args) = ([], ([], "", none)))
    ∧ (∀ cmds, execOp b env (.pipe cmds) = ([], ([], "", none)))
    ∧ (∀ now vol recurse, createSnapshot b env now vol recurse = ([], .ok now))
    ∧ (∀ snap recurse, deleteSnapshot b env snap recurse = ([], .ok ())) := by
  have hwrite : ∀ args, execOp b env (.write args) = ([], ([], "", none)) := by
    intro args
    simp [execOp, runWrite, hdry]
  have hpipe : ∀ cmds, execOp b env (.pipe cmds) = ([], ([], "", none)) := by
    intro cmds
    simp [execOp, runPipeline, hdry]
  refine ⟨?_, fun args => rfl, hwrite, hpipe, ?_, ?_⟩
  · intro ops
    induction ops with
    | nil => rfl
    | cons op rest ih =>
      cases op with
      | query a =>
        simp only [execOps, List.filter_cons]
        rw [ih]
        exact rfl
      | write a =>
        simp only [execOps, List.filter_cons]
        rw [hwrite a]
        simpa using ih
      | pipe cs =>
        simp only [execOps, List.filter_cons]
        rw [hpipe cs]
        simpa using ih
  · intro now vol recurse
    simp [createSnapshot, hdry]
  · intro snap recurse
    simp [deleteSnapshot, runWrite, hdry]

/-- C5 witness: in the dry-run session, a destroy and a transfer pipeline
start nothing and return empty success, the snapshot creation returns the
synthesized label, and a mixed sequence starts exactly the commands of
its query sub-sequence. -/
theorem dryRun_noMutation_witness :
    exDryB.dryrun = true
    ∧ (execOps exDryB ex5EnvOk
        [Op.write ["zfs", "destroy", "tank/data@old"], Op.query ex5List,
         Op.pipe ex3Pipe]).1 =
      (execOps exB ex5EnvOk [Op.query ex5List]).1
    ∧ execOp exDryB ex5EnvOk (.write ["zfs", "destroy", "tank/data@old"]) =
        ([], ([], "", none))
    ∧ execOp exDryB ex5EnvOk (.pipe ex3Pipe) = ([], ([], "", none))
    ∧ createSnapshot exDryB ex5EnvOk "2024-01-06T00:00:00" "tank/data" false =
        ([], .ok "2024-01-06T00:00:00")
    ∧ execOp exDryB ex5EnvOk (.query ex5List) = execOp exB ex5EnvOk (.query ex5List) :=
  ⟨rfl,
    (dryRun_noMutation exDryB ex5EnvOk rfl).1
      [Op.write ["zfs", "destroy", "tank/data@old"], Op.query ex5List, Op.pipe ex3Pipe],
    (dryRun_noMutation exDryB ex5EnvOk rfl).2.2.1 ["zfs", "destroy", "tank/data@old"],
    (dryRun_noMutation exDryB ex5EnvOk rfl).2.2.2.1 ex3Pipe,
    (dryRun_noMutation exDryB ex5EnvOk rfl).2.2.2.2.1 "2024-01-06T00:00:00" "tank/data" false,
    (dryRun_noMutation exDryB ex5EnvOk rfl).2.1 ex5List⟩

/-- C6: the size estimation fails whenever the parsed size is zero —
including when no parseable `size` line is present, where the running
size stays zero — or when the size field does not parse; and when the
estimation at the determined base fails, `backupFilesystem` fails with
that same error outside dry-run but swallows it and succeeds under
dry-run. -/
theorem sizeEstimate_errors (b : Backup) (env : Env) (fs snapName : String) :
    (∀ startSnap endSnap,
        (env.res (estimateCmd b startSnap endSnap)).err = none →
        parseSizeLoop (processOut (env.res (estimateCmd b startSnap endSnap)).stdout) =
          .ok 0 →
        dryrunSingleBackup b env startSnap endSnap =
          ([estimateCmd b startSnap endSnap], .error "backup size 0"))
    ∧ (∀ startSnap endSnap msg,
        (env.res (estimateCmd b startSnap endSnap)).err = none →
        parseSizeLoop (processOut (env.res (estimateCmd b startSnap endSnap)).stdout) =
          .error msg →
        dryrunSingleBackup b env startSnap endSnap =
          ([estimateCmd b startSnap endSnap], .error msg))
    ∧ (∀ e te,
        dryrunSingleBackup b env
            (determineBase b env fs (b.target ++ "/" ++ fs)).2 (fs ++ "@" ++ snapName) =
          (te, .error e) →
        (backupFilesystem b env fs snapName).2 = (if b.dryrun then .ok () else .error e)) := by
  refine ⟨?_, ?_, ?_⟩
  · intro startSnap endSnap hok hp
    unfold dryrunSingleBackup query execCmd
    dsimp only
    rw [hok]
    dsimp only
    rw [hp]
    rfl
  · intro startSnap endSnap msg hok hp
    unfold dryrunSingleBackup query execCmd
    dsimp only
    rw [hok]
    dsimp only
    rw [hp]
  · intro e te hest
    unfold backupFilesystem
    dsimp only
    rcases hdb : determineBase b env fs (b.target ++ "/" ++ fs) with ⟨t0, s0⟩
    rw [hdb] at hest
    dsimp only at hest ⊢
    unfold transferPhase
    dsimp only
    rw [hest]
    dsimp only
    by_cases hd : b.dryrun = true
    · simp [hd]
    · simp [hd]

/-- C6 witness: an estimate whose output parses to size zero fails with
"backup size 0"; with the same oracle the non-dry-run session fails the
filesystem backup while the dry-run session succeeds. -/
theorem sizeEstimate_errors_witness :
    dryrunSingleBackup exB exZeroEnv "" "tank/data@2024-01-06T00:00:00" =
      ([estimateCmd exB "" "tank/data@2024-01-06T00:00:00"], .error "backup size 0")
    ∧ (backupFilesystem exB exZeroEnv "tank/data" "2024-01-06T00:00:00").2 =
        .error "backup size 0"
    ∧ (backupFilesystem exDryB exZeroEnv "tank/data" "2024-01-06T00:00:00").2 = .ok () :=
  ⟨(sizeEstimate_errors exB exZeroEnv "tank/data" "2024-01-06T00:00:00").1
      "" "tank/data@2024-01-06T00:00:00" rfl rfl,
    (sizeEstimate_errors exB exZeroEnv "tank/data" "2024-01-06T00:00:00").2.2
      "backup size 0" [estimateCmd exB "" "tank/data@2024-01-06T00:00:00"] rfl,
    (sizeEstimate_errors exDryB exZeroEnv "tank/data" "2024-01-06T00:00:00").2.2
      "backup size 0" [estimateCmd exDryB "" "tank/data@2024-01-06T00:00:00"] rfl⟩

/-- The matcher scan only ever returns an entry with a derivable
nonempty label. -/
theorem findMatchLoop_some_ne (target : String) (ts : List String) :
    ∀ l s, findMatchLoop target ts l = some s → (splitSnapshot s).2 ≠ "" := by
  intro l
  induction l with
  | nil => intro s h; exact absurd h (by simp [findMatchLoop])
  | cons x rest ih =>
    intro s h
    rw [findMatchLoop] at h
    by_cases hx : (splitSnapshot x).2 = ""
    · rw [if_pos hx] at h
      exact ih s h
    · rw [if_neg hx] at h
      by_cases hc : ts.contains (target ++ "@" ++ (splitSnapshot x).2) = true
      · rw [if_pos hc] at h
        cases h
        exact hx
      · rw [if_neg hc] at h
        exact ih s h

/-- A successful matcher result is a nonempty snapshot name. -/
theorem getLatestMatchingSnapshot_ok_ne (b : Backup) (env : Env)
    (source target : String) (tm : Trace) (s : String)
    (h : getLatestMatchingSnapshot b env source target = (tm, .ok s)) : s ≠ "" := by
  unfold getLatestMatchingSnapshot at h
  rcases h1 : listSnapshots b env source with ⟨t1, r1⟩
  rw [h1] at h
  cases r1 with
  | error e => simp at h
  | ok srcSnaps =>
    dsimp only at h
    rcases h2 : listSnapshots b env target with ⟨t2, r2⟩
    rw [h2] at h
    cases r2 with
    | error e => simp at h
    | ok tgtSnaps =>
      dsimp only at h
      cases hf : findMatchLoop target tgtSnaps srcSnaps.reverse with
      | none => rw [hf] at h; simp at h
      | some s0 =>
        rw [hf] at h
        have hne := findMatchLoop_some_ne target tgtSnaps srcSnaps.reverse s0 hf
        have hss : s0 = s := by
          have := congrArg (fun p => p.2) h
          simpa using this
        rw [hss] at hne
        intro hcontra
        rw [hcontra] at hne
        simp [splitSnapshot, splitChar, splitCharList] at hne

/-- The existence probe in trace form. -/
theorem datasetExists_eq (b : Backup) (env : Env) (vol : String) :
    datasetExists b env vol =
      ([datasetExistsCmd b vol], (env.res (datasetExistsCmd b vol)).err.isNone) := by
  unfold datasetExists query execCmd
  dsimp only
  cases h : (env.res (datasetExistsCmd b vol)).err <;> rfl

/-- When the existence probe fails, the base is empty and the matcher is
never reached: the probe is the only command of the phase. -/
theorem determineBase_not_exists (b : Backup) (env : Env) (fs targetVol : String)
    (h : (env.res (datasetExistsCmd b targetVol)).err.isSome = true) :
    determineBase b env fs targetVol = ([datasetExistsCmd b targetVol], "") := by
  unfold determineBase
  rw [datasetExists_eq]
  have hfalse : (env.res (datasetExistsCmd b targetVol)).err.isNone = false := by
    cases hh : (env.res (datasetExistsCmd b targetVol)).err
    · rw [hh] at h; simp at h
    · simp
  rw [hfalse]
  rfl

/-- When the existence probe succeeds, the phase is the probe followed by
the matcher, whose failure falls back to the empty (full-transfer)
base. -/
theorem determineBase_exists (b : Backup) (env : Env) (fs targetVol : String)
    (h : (env.res (datasetExistsCmd b targetVol)).err = none) :
    determineBase b env fs targetVol =
      (datasetExistsCmd b targetVol :: (getLatestMatchingSnapshot b env fs targetVol).1,
       match (getLatestMatchingSnapshot b env fs targetVol).2 with
       | .ok s => s
       | .error _ => "") := by
  unfold determineBase
  rw [datasetExists_eq, h]
  rcases hm : getLatestMatchingSnapshot b env fs targetVol with ⟨tm, rm⟩
  dsimp only
  cases rm <;> rfl

/-- C7: if the target dataset probe fails, the matcher is never invoked
(the trace is the probe followed directly by the transfer phase with the
empty base) and a full transfer is performed; if the probe succeeds but
the matcher fails, the failure does not abort the filesystem and the
transfer phase runs with the empty base (full transfer); only when the
matcher returns a common snapshot does the transfer phase run with that
(nonempty) base, making the estimation and send incremental via `-i`. -/
theorem backupFilesystem_base_selection (b : Backup) (env : Env)
    (fs snapName fsSnap targetVol : String)
    (hfsSnap : fsSnap = fs ++ "@" ++ snapName)
    (htv : targetVol = b.target ++ "/" ++ fs) :
    ((env.res (datasetExistsCmd b targetVol)).err.isSome = true →
      backupFilesystem b env fs snapName =
        (datasetExistsCmd b targetVol :: (transferPhase b env fs "" fsSnap).1,
         (transferPhase b env fs "" fsSnap).2))
    ∧ (∀ tm e, (env.res (datasetExistsCmd b targetVol)).err = none →
        getLatestMatchingSnapshot b env fs targetVol = (tm, .error e) →
        backupFilesystem b env fs snapName =
          ((datasetExistsCmd b targetVol :: tm) ++ (transferPhase b env fs "" fsSnap).1,
           (transferPhase b env fs "" fsSnap).2))
    ∧ (∀ tm s, (env.res (datasetExistsCmd b targetVol)).err = none →
        getLatestMatchingSnapshot b env fs targetVol = (tm, .ok s) →
        s ≠ ""
        ∧ backupFilesystem b env fs snapName =
          ((datasetExistsCmd b targetVol :: tm) ++ (transferPhase b env fs s fsSnap).1,
           (transferPhase b env fs s fsSnap).2))
    ∧ estimateCmd b "" fsSnap = buildCommand b false ["send", "-n", "-P", fsSnap]
    ∧ sendCmd b "" fsSnap = buildCommand b false ["send", fsSnap]
    ∧ (∀ s : String, s ≠ "" →
        estimateCmd b s fsSnap = buildCommand b false ["send", "-n", "-P", "-i", s, fsSnap]
        ∧ sendCmd b s fsSnap = buildCommand b false ["send", "-i", s, fsSnap]) := by
  refine ⟨?_, ?_, ?_, by simp [estimateCmd], by simp [sendCmd], ?_⟩
  · intro hprobe
    unfold backupFilesystem
    dsimp only
    rw [← hfsSnap, ← htv, determineBase_not_exists b env fs targetVol hprobe]
    rfl
  · intro tm e hprobe hm
    unfold backupFilesystem
    dsimp only
    rw [← hfsSnap, ← htv, determineBase_exists b env fs targetVol hprobe, hm]
  · intro tm s hprobe hm
    refine ⟨getLatestMatchingSnapshot_ok_ne b env fs targetVol tm s hm, ?_⟩
    unfold backupFilesystem
    dsimp only
    rw [← hfsSnap, ← htv, determineBase_exists b env fs targetVol hprobe, hm]
  · intro s hs
    constructor
    · simp [estimateCmd, hs]
    · simp [sendCmd, hs]

/-- C7 witness: with the probe for `backup/tank/data` failing, the run is
the probe followed by a full (no `-i`) transfer phase; with the probe
succeeding and the matcher finding `tank/data@snapB`, the run is the
probe, the two matcher queries, then the transfer phase based at the
common snapshot; and the command shapes distinguish full from
incremental. -/
theorem backupFilesystem_base_selection_witness :
    (exZeroEnv.res (datasetExistsCmd exB "backup/tank/data")).err.isSome = true
    ∧ backupFilesystem exB exZeroEnv "tank/data" "2024-01-06T00:00:00" =
        (datasetExistsCmd exB "backup/tank/data"
           :: (transferPhase exB exZeroEnv "tank/data" "" "tank/data@2024-01-06T00:00:00").1,
         (transferPhase exB exZeroEnv "tank/data" "" "tank/data@2024-01-06T00:00:00").2)
    ∧ ("tank/data@snapB" ≠ ""
      ∧ backupFilesystem exB exMatchEnv "tank/data" "2024-01-07T00:00:00" =
          ((datasetExistsCmd exB "backup/tank/data"
              :: [listSnapshotsCmd exB "tank/data", listSnapshotsCmd exB "backup/tank/data"])
             ++ (transferPhase exB exMatchEnv "tank/data" "tank/data@snapB"
                  "tank/data@2024-01-07T00:00:00").1,
           (transferPhase exB exMatchEnv "tank/data" "tank/data@snapB"
              "tank/data@2024-01-07T00:00:00").2))
    ∧ estimateCmd exB "" "tank/data@2024-01-06T00:00:00" =
        ["zfs", "send", "-n", "-P", "tank/data@2024-01-06T00:00:00"]
    ∧ estimateCmd exB "tank/data@snapB" "tank/data@2024-01-07T00:00:00" =
        ["zfs", "send", "-n", "-P", "-i", "tank/data@snapB", "tank/data@2024-01-07T00:00:00"] :=
  ⟨rfl,
    (backupFilesystem_base_selection exB exZeroEnv "tank/data" "2024-01-06T00:00:00"
      "tank/data@2024-01-06T00:00:00" "backup/tank/data" rfl rfl).1 rfl,
    (backupFilesystem_base_selection exB exMatchEnv "tank/data" "2024-01-07T00:00:00"
      "tank/data@2024-01-07T00:00:00" "backup/tank/data" rfl rfl).2.2.1
      [listSnapshotsCmd exB "tank/data", listSnapshotsCmd exB "backup/tank/data"]
      "tank/data@snapB" rfl rfl,
    rfl, rfl⟩

/-- C9: configuration errors fail before any external process starts:
`NewBackup` (a pure construction, involving no external command) rejects
an empty target root, and, after applying the options, an empty source
or target command prefix; and a pipeline containing an empty argv vector
for any stage returns an error with an empty trace — no stage's process
is ever started. -/
theorem config_validation :
    (∀ opts, NewBackup "" opts = .error "target filesystem cannot be empty")
    ∧ (∀ target opts, target ≠ "" →
        (opts.foldl applyOpt
          { target := target, dryrun := false,
            sourceCmd := ["zfs"], targetCmd := ["zfs"] }).sourceCmd = [] →
        NewBackup target opts = .error "source command cannot be empty")
    ∧ (∀ target opts, target ≠ "" →
        (opts.foldl applyOpt
          { target := target, dryrun := false,
            sourceCmd := ["zfs"], targetCmd := ["zfs"] }).sourceCmd ≠ [] →
        (opts.foldl applyOpt
          { target := target, dryrun := false,
            sourceCmd := ["zfs"], targetCmd := ["zfs"] }).targetCmd = [] →
        NewBackup target opts = .error "target command cannot be empty")
    ∧ (∀ env cmds, (∃ c ∈ cmds, c = []) →
        (execPipeline env cmds).1 = []
        ∧ ∃ e, (execPipeline env cmds).2.2.2 = some e) := by
  refine ⟨?_, ?_, ?_, ?_⟩
  · intro opts
    unfold NewBackup
    rw [if_pos rfl]
  · intro target opts htarget hsrc
    unfold NewBackup
    rw [if_neg htarget]
    dsimp only
    rw [if_pos hsrc]
  · intro target opts htarget hsrc htgt
    unfold NewBackup
    rw [if_neg htarget]
    dsimp only
    rw [if_neg hsrc, if_pos htgt]
  · intro env cmds hempty
    obtain ⟨c, hc, hceq⟩ := hempty
    unfold execPipeline
    by_cases hl : cmds.length < 2
    · rw [if_pos hl]
      exact ⟨rfl, "pipeline needs at least 2 commands", rfl⟩
    · rw [if_neg hl]
      have hany : cmds.any (fun c => c = []) = true := by
        rw [List.any_eq_true]
        exact ⟨c, hc, by simp [hceq]⟩
      rw [if_pos hany]
      exact ⟨rfl, "empty command in pipeline", rfl⟩

/-- C9 witness: the three rejected constructions and a pipeline with an
empty middle stage, which starts nothing. -/
theorem config_validation_witness :
    NewBackup "" [] = .error "target filesystem cannot be empty"
    ∧ NewBackup "backup" [.sourceCommand []] = .error "source command cannot be empty"
    ∧ NewBackup "backup" [.targetCommand []] = .error "target command cannot be empty"
    ∧ ((execPipeline ex5EnvOk [["zfs", "send", "tank@s"], [], ["zfs", "receive", "b"]]).1 = []
      ∧ ∃ e, (execPipeline ex5EnvOk
          [["zfs", "send", "tank@s"], [], ["zfs", "receive", "b"]]).2.2.2 = some e) :=
  ⟨config_validation.1 [],
    config_validation.2.1 "backup" [.sourceCommand []] (by decide) rfl,
    config_validation.2.2.1 "backup" [.targetCommand []] (by decide) (by decide) rfl,
    config_validation.2.2.2 ex5EnvOk [["zfs", "send", "tank@s"], [], ["zfs", "receive", "b"]]
      ⟨[], by simp⟩⟩

end ZfsBackup
